import Mathlib

/-!
Verification of the house-notificator monitor (`src/main.py`).

The program loads a persisted map of known listing ids from a JSON file,
fetches the monitored page, diffs the fetched ids against the known ids,
sends one Telegram notification per new id in descending id order, and
persists the merged map.  The definitions below are a shallow embedding of
that code: Python dicts become insertion-ordered association lists with
unique keys, fallible I/O becomes `Except`, and the notification transport
becomes an outcome parameter.
-/

namespace HouseNotificator

/-- A listing value: `(title, url)` as produced by `get_all_listings`. -/
abbrev Entry := String × String

/-- A Python dict with `int` keys, modelled as an insertion-ordered
association list; key uniqueness is stated where theorems need it. -/
abbrev PyDict (V : Type) := List (Int × V)

/-- Python `k in d` membership test for a dict. -/
def hasKey {V : Type} (m : PyDict V) (k : Int) : Bool :=
  m.any (fun p => p.1 == k)

/-- Python `d[k] = v`: an existing key keeps its position and gets the new
value; a fresh key is appended at the end (dict insertion order). -/
def dictInsert {V : Type} (m : PyDict V) (k : Int) (v : V) : PyDict V :=
  if hasKey m k then m.map (fun p => if p.1 == k then (k, v) else p)
  else m ++ [(k, v)]

/-- Python `known.update(new)` (main.py line 165). -/
def dictUpdate {V : Type} (m new : PyDict V) : PyDict V :=
  new.foldl (fun acc p => dictInsert acc p.1 p.2) m

/-- Python `sorted(keys, reverse=True)` (main.py line 152). -/
def sortDesc (l : List Int) : List Int :=
  List.insertionSort (· ≥ ·) l

/-- A failure of the fetch/extract step: `requests.get` raising, or
`raise_for_status` on a non-2xx response (main.py lines 49-50). -/
inductive FetchErr
  | network
  | httpStatus (code : Int)
deriving DecidableEq

/-- Outcome of the single Telegram POST attempted by
`send_telegram_message` (main.py line 110). -/
inductive SendOutcome
  | success
  | transportError
  | httpError (code : Int)
  | timeout
deriving DecidableEq

/-- `send_telegram_message` (main.py lines 96-117): the whole request is
wrapped in `try/except Exception`, so every non-success outcome is logged
and turned into the return value `False`; only a successful POST returns
`True`.  The Bool return type records that nothing escapes this boundary. -/
def send_telegram_message (o : SendOutcome) : Bool :=
  match o with
  | .success => true
  | _ => false

/-- Observable result of one invocation of `main`: the ids for which a
Telegram send was attempted (in order), the Bool results of those sends,
the state written by `save_known_listings` (if reached), and whether the
run finished normally or re-raised a fetch error. -/
structure RunResult (V : Type) where
  notified : List Int
  sendResults : List Bool
  saved : Option (PyDict V)
  outcome : Except FetchErr Unit

/-- The dict comprehension of main.py lines 143-146: listings in `cur`
whose id is not a key of `known`, in page order. -/
def new_listings {V : Type} (known cur : PyDict V) : PyDict V :=
  cur.filter (fun p => !(hasKey known p.1))

/-- `main` (main.py lines 124-177), shallowly embedded.  `known` is the
map returned by `load_known_listings`; `fetch` is the result of
`get_all_listings` (`Except.error` when it raises); `sendOutcome` gives the
transport outcome of the Telegram POST for each id.  The baseline branch
(`if not known_listings`) runs before any fetch; in the comparison branch a
fetch error is re-raised by the `except` clause before any save. -/
def main {V : Type} (known : PyDict V) (fetch : Except FetchErr (PyDict V))
    (sendOutcome : Int → SendOutcome) : RunResult V :=
  if known.isEmpty then
    match fetch with
    | .error e => ⟨[], [], none, .error e⟩
    | .ok cur => ⟨[], [], some cur, .ok ()⟩
  else
    match fetch with
    | .error e => ⟨[], [], none, .error e⟩
    | .ok cur =>
      let new := new_listings known cur
      if new.isEmpty then
        ⟨[], [], some known, .ok ()⟩
      else
        let order := sortDesc (new.map Prod.fst)
        let results := order.map (fun i => send_telegram_message (sendOutcome i))
        ⟨order, results, some (dictUpdate known new), .ok ()⟩

/-- Process exit status: CPython exits 0 when `main` returns and 1 when the
exception re-raised at main.py line 177 (or raised by the baseline fetch,
which is outside the `try`) propagates out of the `__main__` call. -/
def processExit {V : Type} (r : RunResult V) : Int :=
  match r.outcome with
  | .ok _ => 0
  | .error _ => 1

/-- `get_required_env` (main.py lines 20-30): Python `if not value` is
taken when `os.getenv` returned `None` (variable unset) and also when it
returned the empty string; both paths print an error and `sys.exit(1)`,
modelled as `Except.error 1`. -/
def get_required_env (value : Option String) : Except Nat String :=
  match value with
  | none => .error 1
  | some s => if s = "" then .error 1 else .ok s

/-- Module-level configuration loading (main.py lines 33-39): `URL`, then
`TELEGRAM_BOT_TOKEN`, then `TELEGRAM_CHAT_ID`, each via
`get_required_env`; the first failure exits the process. -/
def startup (url token chatId : Option String) :
    Except Nat (String × String × String) :=
  match get_required_env url with
  | .error c => .error c
  | .ok u =>
    match get_required_env token with
    | .error c => .error c
    | .ok t =>
      match get_required_env chatId with
      | .error c => .error c
      | .ok c2 => .ok (u, t, c2)

/-- The whole process: configuration is loaded at import time, before
`main` runs; a configuration failure therefore yields no run at all. -/
def runProcess {V : Type} (url token chatId : Option String)
    (known : PyDict V) (fetch : Except FetchErr (PyDict V))
    (sendOutcome : Int → SendOutcome) : Except Nat (RunResult V) :=
  match startup url token chatId with
  | .error c => .error c
  | .ok _ => .ok (main known fetch sendOutcome)

/-- Concrete data for witnesses: the spec §8 scenario known = {100, 101}. -/
def knownExample : PyDict Entry :=
  [(100, ("a", "u100")), (101, ("b", "u101"))]

/-- Concrete data for witnesses: fetched = {100, 101, 103, 102}. -/
def fetchedExample : PyDict Entry :=
  [(100, ("a", "u100")), (101, ("b", "u101")),
   (103, ("c", "u103")), (102, ("d", "u102"))]

/-- Transport that delivers every message. -/
def allOk : Int → SendOutcome := fun _ => .success

/-- Transport where the send for id 500 times out (spec §8 fault-isolation
scenario). -/
def failAt500 : Int → SendOutcome :=
  fun i => if i == 500 then .timeout else .success

/-- Known set for the fault-isolation scenario. -/
def knownB : PyDict Entry := [(1, ("k", "u1"))]

/-- Fetched set for the fault-isolation scenario: new ids 500, 600, 400. -/
def fetchedB : PyDict Entry :=
  [(1, ("k", "u1")), (500, ("x", "u500")),
   (600, ("y", "u600")), (400, ("z", "u400"))]

/-- A parsed JSON value, as returned by a successful `json.load`. -/
inductive JValue
  | null
  | bool (b : Bool)
  | num (n : Int)
  | str (s : String)
  | arr (elems : List JValue)
  | obj (items : List (String × JValue))

/-- A Python exception arising inside the `try` of `load_known_listings`.
Only `valueError` is in the `except (json.JSONDecodeError, ValueError,
KeyError)` tuple; the other two are not caught. -/
inductive PyErr
  | attributeError
  | typeError
  | valueError
deriving DecidableEq

/-- The state file as `load_known_listings` sees it: absent, present but
rejected by `json.load` (raising `json.JSONDecodeError`), or parsed. -/
inductive StateFile
  | absent
  | unparseable
  | parsed (v : JValue)

/-- Python `tuple(v)` on a JSON-derived value: arrays convert to their
elements, strings to their one-character substrings, dicts iterate over
their keys; numbers, booleans and `None` are not iterable and raise
`TypeError`. -/
def pyTuple : JValue → Except PyErr (List JValue)
  | .arr xs => .ok xs
  | .str s => .ok (s.toList.map (fun c => JValue.str (String.singleton c)))
  | .obj kvs => .ok (kvs.map (fun p => JValue.str p.1))
  | _ => .error .typeError

/-- Python `int(s)` on a string, modelled for ASCII decimal literals:
surrounding whitespace stripped, an optional sign, then a non-empty digit
string; anything else raises `ValueError`, modelled as `none`. -/
def parseIntPy (s : String) : Option Int :=
  let stripped :=
    ((s.toList.dropWhile Char.isWhitespace).reverse.dropWhile
      Char.isWhitespace).reverse
  let signed :=
    match stripped with
    | '-' :: rest => (true, rest)
    | '+' :: rest => (false, rest)
    | _ => (false, stripped)
  if signed.2 ≠ [] ∧ signed.2.all Char.isDigit then
    let v : Int :=
      signed.2.foldl (fun n c => 10 * n + ((c.toNat : Int) - 48)) 0
    some (if signed.1 then -v else v)
  else none

/-- The dict comprehension of main.py line 83:
`{int(k): tuple(v) for k, v in data.items()}` — items in file order, key
converted before value, a duplicate integer key overwriting the earlier
entry.  The first exception aborts the comprehension. -/
def convItems (kvs : List (String × JValue)) :
    Except PyErr (PyDict (List JValue)) :=
  kvs.foldlM
    (fun acc kv =>
      match parseIntPy kv.1 with
      | none => .error .valueError
      | some ik =>
        match pyTuple kv.2 with
        | .error e => .error e
        | .ok t => .ok (dictInsert acc ik t))
    []

/-- `load_known_listings` (main.py lines 76-87): an absent file yields
`{}` without entering the `try`; a `json.load` failure and a `ValueError`
from `int(k)` are caught and yield `{}` (logged, not raised); but
`data.items()` on a non-dict raises `AttributeError` and `tuple(v)` on a
non-sequence raises `TypeError`, neither of which is in the `except`
tuple, so they propagate out of the function. -/
def load_known_listings : StateFile → Except PyErr (PyDict (List JValue))
  | .absent => .ok []
  | .unparseable => .ok []
  | .parsed (.obj kvs) =>
    match convItems kvs with
    | .ok m => .ok m
    | .error .valueError => .ok []
    | .error e => .error e
  | .parsed _ => .error .attributeError

/-- A file-system operation performed while saving state.  `renameInto`
(atomically replacing the target with an already-written temp file) is
what an atomic save would use; `save_known_listings` never performs it. -/
inductive FsOp
  | openTrunc
  | writeAll (content : String)
  | renameInto (content : String)
deriving DecidableEq

/-- Escaping applied by `json.dump` (with `ensure_ascii=False`) to one
character of a string. -/
def escChar (c : Char) : String :=
  if c = '"' then "\\\""
  else if c = '\\' then "\\\\"
  else if c = '\n' then "\\n"
  else if c = '\t' then "\\t"
  else if c = '\r' then "\\r"
  else String.singleton c

/-- A JSON string literal for `s`. -/
def jsonStr (s : String) : String :=
  "\"" ++ String.join (s.toList.map escChar) ++ "\""

/-- One `"id": [title, url]` item of the `indent=2` serialization. -/
def serializeItem (k : Int) (e : Entry) : String :=
  "  " ++ jsonStr (toString k) ++ ": [\n    " ++ jsonStr e.1 ++ ",\n    "
    ++ jsonStr e.2 ++ "\n  ]"

/-- `json.dump(data, f, ensure_ascii=False, indent=2)` of the dict
`{str(k): list(v)}` built at main.py line 92. -/
def serialize (m : PyDict Entry) : String :=
  match m with
  | [] => "\x7b\x7d"
  | _ =>
    "\x7b\n" ++
      String.intercalate ",\n" (m.map (fun p => serializeItem p.1 p.2)) ++
      "\n\x7d"

/-- `save_known_listings` (main.py lines 89-94) as the sequence of file
operations it performs: `open(KNOWN_LISTINGS_FILE, "w")` truncates the
state file in place, then the serialized JSON is written to it.  No
temporary file and no rename are involved. -/
def save_known_listings (m : PyDict Entry) : List FsOp :=
  [.openTrunc, .writeAll (serialize m)]

/-- The state-file content after executing a prefix of the save
operations, starting from previous content `old`; a crash mid-save leaves
the file at one of these intermediate contents. -/
def fileAfter (old : String) (ops : List FsOp) : String :=
  ops.foldl
    (fun _cur op =>
      match op with
      | .openTrunc => ""
      | .writeAll s => s
      | .renameInto s => s)
    old

end HouseNotificator

namespace HouseNotificator

theorem isEmpty_false_of_ne {V : Type} (l : List V) (h : l ≠ []) :
    l.isEmpty = false := by
  cases l with
  | nil => exact absurd rfl h
  | cons a t => rfl

theorem hasKey_of_mem {V : Type} {m : PyDict V} {p : Int × V} (hp : p ∈ m) :
    hasKey m p.1 = true := by
  simp only [hasKey, List.any_eq_true]
  exact ⟨p, hp, by simp⟩

theorem exists_mem_of_hasKey {V : Type} {m : PyDict V} {k : Int}
    (h : hasKey m k = true) : ∃ p ∈ m, p.1 = k := by
  simp only [hasKey, List.any_eq_true] at h
  obtain ⟨p, hp, he⟩ := h
  exact ⟨p, hp, by simpa using he⟩

theorem hasKey_map_replace {V : Type} (m : PyDict V) (a : Int) (v : V)
    (k : Int) :
    hasKey (m.map (fun p => if p.1 == a then (a, v) else p)) k = hasKey m k := by
  simp only [hasKey, List.any_map]
  congr 1
  funext p
  by_cases h : p.1 = a
  · simp [h]
  · simp [h]

theorem hasKey_dictInsert {V : Type} (m : PyDict V) (a : Int) (v : V)
    (k : Int) :
    hasKey (dictInsert m a v) k = (hasKey m k || (a == k)) := by
  unfold dictInsert
  by_cases h : hasKey m a
  · rw [if_pos h, hasKey_map_replace]
    by_cases hk : a = k
    · subst hk
      simp [h]
    · simp [hk]
  · rw [if_neg h]
    simp [hasKey, List.any_append]

theorem hasKey_dictUpdate {V : Type} (m new : PyDict V) (k : Int) :
    hasKey (dictUpdate m new) k = (hasKey m k || hasKey new k) := by
  induction new generalizing m with
  | nil => simp [dictUpdate, hasKey]
  | cons p rest ih =>
    show hasKey (dictUpdate (dictInsert m p.1 p.2) rest) k = _
    rw [ih, hasKey_dictInsert]
    simp [hasKey, Bool.or_assoc]

theorem dictInsert_ne_nil {V : Type} (m : PyDict V) (a : Int) (v : V)
    (h : m ≠ []) : dictInsert m a v ≠ [] := by
  unfold dictInsert
  by_cases hk : hasKey m a
  · simpa [hk] using h
  · simp [hk]

theorem dictUpdate_ne_nil {V : Type} (m new : PyDict V) (h : m ≠ []) :
    dictUpdate m new ≠ [] := by
  induction new generalizing m with
  | nil => simpa [dictUpdate]
  | cons p rest ih =>
    show dictUpdate (dictInsert m p.1 p.2) rest ≠ []
    exact ih _ (dictInsert_ne_nil m p.1 p.2 h)

theorem hasKey_new_listings {V : Type} (known cur : PyDict V) (k : Int) :
    hasKey (new_listings known cur) k = (hasKey cur k && !(hasKey known k)) := by
  rw [Bool.eq_iff_iff]
  simp only [Bool.and_eq_true, Bool.not_eq_true']
  constructor
  · intro h
    obtain ⟨p, hp, hpk⟩ := exists_mem_of_hasKey h
    rw [new_listings, List.mem_filter] at hp
    constructor
    · have := hasKey_of_mem hp.1
      rwa [hpk] at this
    · have := hp.2
      simp only [Bool.not_eq_true'] at this
      rwa [hpk] at this
  · rintro ⟨hc, hn⟩
    obtain ⟨p, hp, hpk⟩ := exists_mem_of_hasKey hc
    have hmem : p ∈ new_listings known cur := by
      rw [new_listings, List.mem_filter]
      exact ⟨hp, by simp [hpk, hn]⟩
    have := hasKey_of_mem hmem
    rwa [hpk] at this

theorem mem_newKeys {V : Type} (known cur : PyDict V) (i : Int) :
    i ∈ (new_listings known cur).map Prod.fst ↔
      (hasKey cur i = true ∧ hasKey known i = false) := by
  constructor
  · rintro hm
    obtain ⟨p, hp, rfl⟩ := List.mem_map.mp hm
    rw [new_listings, List.mem_filter] at hp
    refine ⟨hasKey_of_mem hp.1, ?_⟩
    have := hp.2
    simpa using this
  · rintro ⟨hc, hn⟩
    obtain ⟨p, hp, hpk⟩ := exists_mem_of_hasKey hc
    refine List.mem_map.mpr ⟨p, ?_, hpk⟩
    rw [new_listings, List.mem_filter]
    exact ⟨hp, by simp [hpk, hn]⟩

theorem newKeys_nodup {V : Type} (known cur : PyDict V)
    (h : (cur.map Prod.fst).Nodup) :
    ((new_listings known cur).map Prod.fst).Nodup :=
  ((List.filter_sublist cur).map Prod.fst).nodup h

theorem mem_sortDesc (l : List Int) (i : Int) : i ∈ sortDesc l ↔ i ∈ l :=
  (List.perm_insertionSort _ l).mem_iff

theorem sortDesc_strictDesc (l : List Int) (h : l.Nodup) :
    (sortDesc l).Pairwise (· > ·) := by
  have hs : (sortDesc l).Pairwise (· ≥ ·) := List.sorted_insertionSort _ l
  have hnd : (sortDesc l).Nodup :=
    (List.perm_insertionSort _ l).nodup_iff.mpr h
  exact (hs.and hnd).imp (fun hab => lt_of_le_of_ne hab.1 (Ne.symm hab.2))

theorem main_comparison_empty {V : Type} (known cur : PyDict V)
    (s : Int → SendOutcome) (h : known ≠ [])
    (he : new_listings known cur = []) :
    main known (.ok cur) s = ⟨[], [], some known, .ok ()⟩ := by
  unfold main
  rw [isEmpty_false_of_ne known h]
  simp [he]

theorem main_comparison_nonempty {V : Type} (known cur : PyDict V)
    (s : Int → SendOutcome) (h : known ≠ [])
    (he : new_listings known cur ≠ []) :
    main known (.ok cur) s =
      ⟨sortDesc ((new_listings known cur).map Prod.fst),
       (sortDesc ((new_listings known cur).map Prod.fst)).map
         (fun i => send_telegram_message (s i)),
       some (dictUpdate known (new_listings known cur)), .ok ()⟩ := by
  unfold main
  rw [isEmpty_false_of_ne known h]
  simp [isEmpty_false_of_ne _ he]

theorem new_listings_after_update {V : Type} (known cur : PyDict V) :
    new_listings (dictUpdate known (new_listings known cur)) cur = [] := by
  rw [new_listings, List.filter_eq_nil_iff]
  intro p hp
  rw [hasKey_dictUpdate, hasKey_new_listings, hasKey_of_mem hp]
  by_cases hn : hasKey known p.1 <;> simp [hn]

/-- C1: in a comparison run (loaded known set non-empty), the set of ids
for which a notification is attempted is exactly the set of fetched ids
that are not known — ids(B) minus ids(A); no id of A is ever re-reported. -/
theorem comparison_reports_exactly_new_ids {V : Type} (known cur : PyDict V)
    (s : Int → SendOutcome) (h : known ≠ []) (i : Int) :
    i ∈ (main known (.ok cur) s).notified ↔
      (hasKey cur i = true ∧ hasKey known i = false) := by
  by_cases he : new_listings known cur = []
  · rw [main_comparison_empty known cur s h he,
      ← mem_newKeys known cur i, he]
    simp
  · rw [main_comparison_nonempty known cur s h he]
    show i ∈ sortDesc _ ↔ _
    rw [mem_sortDesc, mem_newKeys]

/-- Witness for C1 at the spec §8 scenario with id 102. -/
theorem comparison_reports_exactly_new_ids_witness :
    (102 : Int) ∈ (main knownExample (.ok fetchedExample) allOk).notified ↔
      (hasKey fetchedExample 102 = true ∧ hasKey knownExample 102 = false) :=
  comparison_reports_exactly_new_ids knownExample fetchedExample allOk
    (by decide) 102

/-- C3: the list of ids notified in one run is strictly descending
(`sorted(..., reverse=True)` over the distinct new ids). -/
theorem notifications_strictly_descending {V : Type} (known cur : PyDict V)
    (s : Int → SendOutcome) (h : known ≠ [])
    (hnd : (cur.map Prod.fst).Nodup) :
    ((main known (.ok cur) s).notified).Pairwise (· > ·) := by
  by_cases he : new_listings known cur = []
  · rw [main_comparison_empty known cur s h he]
    exact List.Pairwise.nil
  · rw [main_comparison_nonempty known cur s h he]
    exact sortDesc_strictDesc _ (newKeys_nodup known cur hnd)

/-- Witness for C3 at the spec §8 scenario (new ids 103 and 102). -/
theorem notifications_strictly_descending_witness :
    ((main knownExample (.ok fetchedExample) allOk).notified).Pairwise
      (· > ·) :=
  notifications_strictly_descending knownExample fetchedExample allOk
    (by decide) (by decide)

/-- C4: every successful run persists a superset (by id) of the loaded
state: any id known before the run is a key of the saved map.  (In a
baseline run the loaded state is empty, so the statement is vacuous
there.) -/
theorem persisted_state_monotonic {V : Type} (known cur : PyDict V)
    (s : Int → SendOutcome) (k : Int) (h : hasKey known k = true) :
    ∃ m, (main known (.ok cur) s).saved = some m ∧ hasKey m k = true := by
  have hne : known ≠ [] := by
    intro e
    rw [e] at h
    simp [hasKey] at h
  by_cases he : new_listings known cur = []
  · exact ⟨known, by rw [main_comparison_empty known cur s hne he], h⟩
  · refine ⟨dictUpdate known (new_listings known cur),
      by rw [main_comparison_nonempty known cur s hne he], ?_⟩
    rw [hasKey_dictUpdate, h, Bool.true_or]

/-- Witness for C4: id 100 stays known across the scenario run. -/
theorem persisted_state_monotonic_witness :
    ∃ m, (main knownExample (.ok fetchedExample) allOk).saved = some m ∧
      hasKey m 100 = true :=
  persisted_state_monotonic knownExample fetchedExample allOk 100 (by decide)

/-- C5: running the comparison path twice on the same fetched set gives
zero notifications the second time, and the state saved by the second run
is exactly the state saved by the first. -/
theorem comparison_run_idempotent {V : Type} (known cur : PyDict V)
    (s1 s2 : Int → SendOutcome) (h : known ≠ []) :
    ∃ m1, (main known (.ok cur) s1).saved = some m1 ∧
      (main m1 (.ok cur) s2).notified = [] ∧
      (main m1 (.ok cur) s2).saved = some m1 := by
  by_cases he : new_listings known cur = []
  · refine ⟨known, by rw [main_comparison_empty known cur s1 h he], ?_, ?_⟩ <;>
      rw [main_comparison_empty known cur s2 h he]
  · have hm1 : dictUpdate known (new_listings known cur) ≠ [] :=
      dictUpdate_ne_nil known _ h
    have he2 := new_listings_after_update known cur
    refine ⟨dictUpdate known (new_listings known cur),
      by rw [main_comparison_nonempty known cur s1 h he], ?_, ?_⟩ <;>
      rw [main_comparison_empty _ cur s2 hm1 he2]

/-- Witness for C5 at the spec §8 scenario. -/
theorem comparison_run_idempotent_witness :
    ∃ m1, (main knownExample (.ok fetchedExample) allOk).saved = some m1 ∧
      (main m1 (.ok fetchedExample) allOk).notified = [] ∧
      (main m1 (.ok fetchedExample) allOk).saved = some m1 :=
  comparison_run_idempotent knownExample fetchedExample allOk allOk
    (by decide)

/-- C9: every non-success transport outcome makes `send_telegram_message`
return `false` (it never raises — its `try/except Exception` swallows
everything); and in a comparison run the ids notified and the state saved
do not depend on the delivery outcomes at all, and every fetched id —
including ones whose notification failed — ends up in the saved state. -/
theorem notification_failure_isolated {V : Type} (known cur : PyDict V)
    (s s2 : Int → SendOutcome) (h : known ≠ []) :
    (∀ o, o ≠ SendOutcome.success → send_telegram_message o = false) ∧
    (main known (.ok cur) s).notified = (main known (.ok cur) s2).notified ∧
    (main known (.ok cur) s).saved = (main known (.ok cur) s2).saved ∧
    (∀ k, hasKey cur k = true →
      ∃ m, (main known (.ok cur) s).saved = some m ∧ hasKey m k = true) := by
  refine ⟨?_, ?_, ?_, ?_⟩
  · intro o ho
    cases o with
    | success => exact absurd rfl ho
    | transportError => rfl
    | httpError c => rfl
    | timeout => rfl
  · by_cases he : new_listings known cur = []
    · rw [main_comparison_empty known cur s h he,
        main_comparison_empty known cur s2 h he]
    · rw [main_comparison_nonempty known cur s h he,
        main_comparison_nonempty known cur s2 h he]
  · by_cases he : new_listings known cur = []
    · rw [main_comparison_empty known cur s h he,
        main_comparison_empty known cur s2 h he]
    · rw [main_comparison_nonempty known cur s h he,
        main_comparison_nonempty known cur s2 h he]
  · intro k hk
    by_cases he : new_listings known cur = []
    · have hfalse : (hasKey cur k && !(hasKey known k)) = false := by
        rw [← hasKey_new_listings known cur k, he]
        rfl
      rw [hk, Bool.true_and] at hfalse
      refine ⟨known, by rw [main_comparison_empty known cur s h he], ?_⟩
      cases hkb : hasKey known k with
      | true => rfl
      | false =>
        rw [hkb] at hfalse
        simp at hfalse
    · refine ⟨dictUpdate known (new_listings known cur),
        by rw [main_comparison_nonempty known cur s h he], ?_⟩
      rw [hasKey_dictUpdate, hasKey_new_listings, hk]
      by_cases hkn : hasKey known k <;> simp [hkn]

/-- Witness for C9 at the spec fault-isolation scenario: the send for id
500 times out, ids 600 and 400 are still attempted, and id 500 is still
persisted. -/
theorem notification_failure_isolated_witness :
    (∀ o, o ≠ SendOutcome.success → send_telegram_message o = false) ∧
    (main knownB (.ok fetchedB) failAt500).notified =
      (main knownB (.ok fetchedB) allOk).notified ∧
    (main knownB (.ok fetchedB) failAt500).saved =
      (main knownB (.ok fetchedB) allOk).saved ∧
    (∀ k, hasKey fetchedB k = true →
      ∃ m, (main knownB (.ok fetchedB) failAt500).saved = some m ∧
        hasKey m k = true) :=
  notification_failure_isolated knownB fetchedB failAt500 allOk (by decide)

/-- C7 counterexample: a state file containing the valid JSON document
`[]` (a top-level array) is structurally invalid as persisted state, yet
`load_known_listings` does not return the empty Listing Set — it raises
`AttributeError` from `data.items()`, which is not in the caught
`(json.JSONDecodeError, ValueError, KeyError)` tuple, so the run fails. -/
theorem corrupt_state_raises_counterexample :
    load_known_listings (.parsed (.arr [])) = .error .attributeError := rfl

/-- C7 (amended): `load_known_listings` logs and returns the empty map on
an absent file, on a `json.load` parse failure, and on a non-integer key
(the `ValueError` from `int(k)` is caught); but a parsed state whose top
level is not a JSON object raises `AttributeError`, and an object entry
whose value is a number, boolean or null raises `TypeError` from
`tuple(v)`; those two propagate and fail the run.  A well-formed object
converts to the integer-keyed map. -/
theorem load_recovers_only_caught_errors :
    load_known_listings .absent = .ok [] ∧
    load_known_listings .unparseable = .ok [] ∧
    (∀ rest : List (String × JValue),
      load_known_listings (.parsed (.obj (("x", .arr []) :: rest))) =
        .ok []) ∧
    (∀ xs, load_known_listings (.parsed (.arr xs)) =
      .error .attributeError) ∧
    (∀ s, load_known_listings (.parsed (.str s)) =
      .error .attributeError) ∧
    (∀ n, load_known_listings (.parsed (.num n)) =
      .error .attributeError) ∧
    (∀ b, load_known_listings (.parsed (.bool b)) =
      .error .attributeError) ∧
    load_known_listings (.parsed .null) = .error .attributeError ∧
    load_known_listings (.parsed (.obj [("1", .null)])) =
      .error .typeError ∧
    load_known_listings (.parsed (.obj [("1", .arr [.str "t", .str "u"])])) =
      .ok [(1, [.str "t", .str "u"])] := by
  refine ⟨rfl, rfl, ?_, fun xs => rfl, fun s => rfl, fun n => rfl,
    fun b => rfl, rfl, ?_, ?_⟩
  · intro rest
    rfl
  · rfl
  · rfl

/-- C8 counterexample: crashing right after the truncating `open` of
`save_known_listings` (executing only the first of its two file
operations) leaves an empty state file — which is neither the previous
content nor the new serialization (both are non-empty), so the overwrite
is not atomic in the claimed sense, and the save performs no rename of a
temporary file at all. -/
theorem save_not_atomic_counterexample :
    fileAfter (serialize [((2 : Int), ("a", "b"))])
      ((save_known_listings [((1 : Int), ("t", "u"))]).take 1) = "" ∧
    0 < (serialize [((2 : Int), ("a", "b"))]).length ∧
    0 < (serialize [((1 : Int), ("t", "u"))]).length ∧
    ((save_known_listings [((1 : Int), ("t", "u"))]).all
      (fun op => match op with | .renameInto _ => false | _ => true)) =
      true := by
  refine ⟨rfl, ?_, ?_, rfl⟩ <;> decide

/-- C8 (amended): `save_known_listings` truncates the state file in place
and then writes the serialization, with no temporary file or rename; a
crash between the two steps leaves an empty file, which is not the
serialization of any Listing Set (every serialization has positive
length, so `json.load` rejects the empty file); a later
`load_known_listings` on such an unparseable file recovers with the empty
map, losing the known set rather than failing the run. -/
theorem save_overwrites_in_place (m : PyDict Entry) (old : String) :
    save_known_listings m = [.openTrunc, .writeAll (serialize m)] ∧
    fileAfter old ((save_known_listings m).take 1) = "" ∧
    0 < (serialize m).length ∧
    load_known_listings .unparseable = .ok [] := by
  refine ⟨rfl, rfl, ?_, rfl⟩
  cases m with
  | nil => decide
  | cons p rest =>
    show 0 <
      (("\x7b\n" ++
        String.intercalate ",\n"
          ((p :: rest).map (fun q => serializeItem q.1 q.2))) ++
        "\n\x7d").length
    rw [String.length_append, String.length_append]
    have h2 : ("\x7b\n" : String).length = 2 := rfl
    rw [h2]
    omega

/-- C6: when the fetch/extract step fails, `main` writes no state, sends
no notification, re-raises the error, and the process exits nonzero. -/
theorem fetch_failure_aborts_before_save {V : Type} (known : PyDict V)
    (e : FetchErr) (s : Int → SendOutcome) :
    (main known (.error e) s).saved = none ∧
    (main known (.error e) s).notified = [] ∧
    (main known (.error e) s).outcome = .error e ∧
    processExit (main known (.error e) s) = 1 := by
  unfold main processExit
  by_cases h : known.isEmpty <;> simp [h]

/-- C2: with an empty loaded state the run is a baseline: zero
notifications and the fetched set persisted exactly; and
`load_known_listings` yields the empty map both for an absent file and for
a file containing an empty JSON object. -/
theorem baseline_run_zero_notifications {V : Type} (cur : PyDict V)
    (s : Int → SendOutcome) :
    (main ([] : PyDict V) (.ok cur) s).notified = [] ∧
    (main ([] : PyDict V) (.ok cur) s).saved = some cur ∧
    load_known_listings .absent = .ok [] ∧
    load_known_listings (.parsed (.obj [])) = .ok [] := by
  refine ⟨?_, ?_, rfl, rfl⟩ <;> (unfold main; simp)

/-- C10: an empty-string required environment variable is treated exactly
like an unset one — `get_required_env` exits with status 1, and the
process produces no run result (no monitoring work) in either case,
whichever of the three required variables is affected. -/
theorem empty_env_var_rejected (token chatId : Option String) :
    get_required_env (some "") = .error 1 ∧
    get_required_env none = .error 1 ∧
    (∀ (V : Type) (known : PyDict V) fetch s,
      runProcess (some "") token chatId known fetch s = .error 1) ∧
    (∀ (V : Type) (known : PyDict V) fetch s,
      runProcess none token chatId known fetch s = .error 1) ∧
    (∀ (V : Type) (known : PyDict V) fetch s chatId2,
      runProcess (some "u") (some "") chatId2 known fetch s = .error 1) ∧
    (∀ (V : Type) (known : PyDict V) fetch s,
      runProcess (some "u") (some "t") (some "") known fetch s = .error 1) := by
  refine ⟨rfl, rfl, ?_, ?_, ?_, ?_⟩ <;>
    intros <;> simp [runProcess, startup, get_required_env]

end HouseNotificator
